import Mathlib

/-!
Verification of the whisperclip transcription orchestration core.

Shallow embedding of the Rust sources:
  - `src/config.rs`  : provider presets, local model presets, process configuration
  - `src/audio.rs`   : `Recorder::stop` (mono downmix and 16-bit PCM encoding)
  - `src/ui.rs`      : runtime state, startup resolution, provider switching,
                       model load and download handlers, the click handler

Conventions of the embedding:
  - 32-bit float samples are modelled as rationals; the concrete inputs used in
    counterexamples and witnesses are exactly representable in IEEE f32.
  - The settings store (src/db.rs is not part of the provided sources) is
    modelled from the spec as a string key-value map with get and set.
  - The loaded whisper model handle (src/local_stt.rs is not part of the
    provided sources) is modelled as an opaque `Option Unit` residency marker;
    load and download outcomes are events of the transition system.
  - The models directory is modelled as the list of file names present.
-/

namespace WhisperClip

/-! ## config.rs -/

inductive TranscriptionService where
  | Api
  | Local
deriving DecidableEq, Repr

structure ApiPreset where
  id : String
  label : String
  base_url : String
  default_model : String
  needs_key : Bool
deriving DecidableEq, Repr

def groqPreset : ApiPreset :=
  { id := "groq", label := "Groq", base_url := "https://api.groq.com/openai/v1",
    default_model := "whisper-large-v3-turbo", needs_key := true }

def ollamaPreset : ApiPreset :=
  { id := "ollama", label := "Ollama", base_url := "http://localhost:11434/v1",
    default_model := "whisper", needs_key := false }

def openrouterPreset : ApiPreset :=
  { id := "openrouter", label := "OpenRouter", base_url := "https://openrouter.ai/api/v1",
    default_model := "openai/whisper-1", needs_key := true }

def lmstudioPreset : ApiPreset :=
  { id := "lmstudio", label := "LM Studio", base_url := "http://localhost:1234/v1",
    default_model := "whisper-1", needs_key := false }

def API_PRESETS : List ApiPreset :=
  [groqPreset, ollamaPreset, openrouterPreset, lmstudioPreset]

def find_preset (id : String) : Option ApiPreset :=
  API_PRESETS.find? (fun p => p.id = id)

structure LocalModelPreset where
  id : String
  label : String
  file_name : String
  size_label : String
deriving DecidableEq, Repr

def localTiny : LocalModelPreset :=
  { id := "local-tiny", label := "Tiny", file_name := "ggml-tiny.en.bin", size_label := "~75 MB" }

def localBase : LocalModelPreset :=
  { id := "local-base", label := "Base", file_name := "ggml-base.en.bin", size_label := "~142 MB" }

def localSmall : LocalModelPreset :=
  { id := "local-small", label := "Small", file_name := "ggml-small.en.bin", size_label := "~466 MB" }

def localMedium : LocalModelPreset :=
  { id := "local-medium", label := "Medium", file_name := "ggml-medium.en.bin", size_label := "~1.5 GB" }

def LOCAL_MODEL_PRESETS : List LocalModelPreset :=
  [localTiny, localBase, localSmall, localMedium]

def DEFAULT_LOCAL_MODEL : String := "local-tiny"

def find_local_model (id : String) : Option LocalModelPreset :=
  LOCAL_MODEL_PRESETS.find? (fun m => m.id = id)

/-- Process-level configuration, the result of `Config::load` in `src/config.rs`
(paths and the sound flag are irrelevant to the claims and omitted). -/
structure Config where
  transcription_service : TranscriptionService
  api_base_url : String
  api_key : Option String
  api_model : String
deriving DecidableEq, Repr

/-! ## Settings store

Modelled from the spec: the settings collaborator contract of section 6
(`get_setting(key) -> Option<String>`, `set_setting(key, value)`), backing
`src/db.rs` which is not among the provided sources. -/

def Settings := List (String × String)

instance : DecidableEq Settings := by
  unfold Settings
  infer_instance

def get_setting (db : Settings) (k : String) : Option String :=
  (db.find? (fun kv => kv.1 = k)).map (fun kv => kv.2)

def set_setting (db : Settings) (k v : String) : Settings :=
  (k, v) :: db.filter (fun kv => kv.1 ≠ k)

/-! ## audio.rs : Recorder::stop -/

/-- Rust `f32::clamp(-1.0, 1.0)` on a sample. -/
def clampQ (s : ℚ) : ℚ := min (max s (-1)) 1

/-- Rust `as i16` conversion of an in-range float: truncation toward zero. -/
def as_i16_trunc (x : ℚ) : ℤ := if 0 ≤ x then ⌊x⌋ else ⌈x⌉

/-- One sample of the WAV encoding loop in `Recorder::stop`:
`(sample.clamp(-1.0, 1.0) * i16::MAX as f32) as i16`. -/
def encodeSample (s : ℚ) : ℤ := as_i16_trunc (clampQ s * 32767)

/-- The mono downmix of `Recorder::stop`:
`samples.chunks(channels).map(|chunk| chunk.iter().sum::<f32>() / chunk.len() as f32)`.
The zero-channel case never arises in the source (the branch runs only when
`channels > 1`); it is mapped to the empty list to keep the function total. -/
def downmix : Nat → List ℚ → List ℚ
  | _, [] => []
  | 0, _ :: _ => []
  | c + 1, x :: xs =>
      ((x :: xs.take c).sum / ((x :: xs.take c).length : ℚ)) :: downmix (c + 1) (xs.drop c)
termination_by _ l => l.length
decreasing_by
  simp only [List.length_drop, List.length_cons]
  omega

/-- Output WAV container of `Recorder::stop` (hound `WavSpec` plus samples). -/
structure WavOut where
  channels : Nat
  sample_rate : Nat
  bits_per_sample : Nat
  data : List ℤ
deriving DecidableEq, Repr

/-- `Recorder::stop` from `src/audio.rs`: error on empty capture, mono downmix
when multi-channel, then 16-bit PCM encoding. -/
def recorder_stop (channels : Nat) (sample_rate : Nat) (samples : List ℚ) :
    Except String WavOut :=
  if samples.isEmpty then .error "No audio recorded"
  else
    let mono := if channels > 1 then downmix channels samples else samples
    .ok { channels := 1, sample_rate := sample_rate, bits_per_sample := 16,
          data := mono.map encodeSample }

/-! ## ui.rs : the model download thread

`download_and_load_model` spawns a thread that issues the HTTP request, streams
the body to the `.part` file in chunks, renames it into place on completion and
removes the partial file on any failure.  The models directory is modelled as
the list of file names present; file contents are abstracted away (only
existence matters to the claims). -/

def file_create (fs : List String) (p : String) : List String :=
  if p ∈ fs then fs else p :: fs

def file_remove (fs : List String) (p : String) : List String :=
  fs.filter (fun f => f ≠ p)

def file_rename (fs : List String) (src dst : String) : List String :=
  if src ∈ fs then dst :: file_remove (file_remove fs src) dst else fs

/-- Outcome of one iteration of the chunk loop: a successful read-and-write,
a read error, or a write error. -/
inductive ChunkStep where
  | ok
  | readErr
  | writeErr
deriving DecidableEq, Repr

/-- The chunk loop of the download thread.  An empty list of remaining steps is
the `read` returning 0 bytes, which breaks the loop.  Writes do not change
which files exist, so the directory is returned unchanged on every path. -/
def dl_write_loop (fs : List String) : List ChunkStep → List String × Except String Unit
  | [] => (fs, .ok ())
  | .ok :: rest => dl_write_loop fs rest
  | .readErr :: _ => (fs, .error "Download read error")
  | .writeErr :: _ => (fs, .error "File write error")

/-- Scenario for one download attempt: where (if anywhere) it fails. -/
inductive DlScen where
  | requestFail
  | badStatus
  | createFail
  | started (steps : List ChunkStep) (renameOk : Bool)
deriving DecidableEq, Repr

/-- The fallible body of the download thread (the inner closure returning
`Result<(), String>`), threading the models directory through the file
operations. -/
def download_body (scen : DlScen) (fs : List String) (part final : String) :
    List String × Except String Unit :=
  match scen with
  | .requestFail => (fs, .error "Download request failed")
  | .badStatus => (fs, .error "Download failed: HTTP status")
  | .createFail => (fs, .error "Failed to create file")
  | .started steps renameOk =>
      let fs1 := file_create fs part
      match dl_write_loop fs1 steps with
      | (fs2, .error e) => (fs2, .error e)
      | (fs2, .ok _) =>
          if renameOk then (file_rename fs2 part final, .ok ())
          else (fs2, .error "Failed to rename model file")

/-- The full download thread: on an error from the body, the partial file is
removed and an error message is sent (`true` in the second component); on
success `Done` is sent (`false`). -/
def download_run (scen : DlScen) (fs : List String) (part final : String) :
    List String × Bool :=
  match download_body scen fs part final with
  | (fs1, .ok _) => (fs1, false)
  | (fs1, .error _) => (file_remove fs1 part, true)

/-! ## ui.rs : runtime state and event handlers -/

/-- The `State` enum of `src/ui.rs`. -/
inductive UiState where
  | Idle
  | Recording
  | Processing
deriving DecidableEq, Repr

/-- The `RuntimeState` struct of `src/ui.rs`.  The loaded whisper model is an
opaque residency marker (`LocalWhisper` itself is outside the provided
sources). -/
structure RuntimeState where
  active_service : TranscriptionService
  active_provider : String
  api_base_url : String
  api_key : Option String
  api_model : String
  local_whisper : Option Unit
  downloading : Bool
deriving DecidableEq, Repr

/-- Global state of the orchestration loop: UI state machine, runtime
configuration, settings store, models directory, status label, whether the
recorder has an open stream, bookkeeping for pending background operations
(model loads in flight, the download poll with its target file, the
transcription request) and whether the custom-API dialog is open. -/
structure Sys where
  st : UiState
  rt : RuntimeState
  db : Settings
  fs : List String
  status : String
  capturing : Bool
  pendingLoads : Nat
  pendingDl : Bool
  dlTarget : Option String
  pendingTrans : Bool
  dialogOpen : Bool
deriving DecidableEq

/-- The startup resolution in `build_ui` (src/ui.rs lines 164-242): the DB
setting overrides the env-var configuration.  Returns the tuple
(service, provider, base url, api key, api model). -/
def resolve_initial (config : Config) (db : Settings) :
    TranscriptionService × String × String × Option String × String :=
  match get_setting db "transcription_mode" with
  | some "local" =>
      (.Local, DEFAULT_LOCAL_MODEL, config.api_base_url, config.api_key, config.api_model)
  | some "custom" =>
      let url := (get_setting db "api_custom_url").getD config.api_base_url
      let key := (get_setting db "api_custom_key").or config.api_key
      let model := (get_setting db "api_custom_model").getD config.api_model
      (.Api, "custom", url, key, model)
  | some provider_id =>
      match find_preset provider_id with
      | some preset =>
          let key :=
            if preset.needs_key then
              (get_setting db ("api_key_" ++ preset.id)).or config.api_key
            else none
          (.Api, provider_id, preset.base_url, key, preset.default_model)
      | none =>
          if (find_local_model provider_id).isSome then
            (.Local, provider_id, config.api_base_url, config.api_key, config.api_model)
          else
            (config.transcription_service, "groq", config.api_base_url, config.api_key,
              config.api_model)
  | none =>
      let provider :=
        if config.transcription_service = .Local then DEFAULT_LOCAL_MODEL else "groq"
      (config.transcription_service, provider, config.api_base_url, config.api_key,
        config.api_model)

/-- The startup model load (src/ui.rs lines 244-262): only in Local mode and
only when the selected model file exists; `loadOk` is the outcome of
`LocalWhisper::new` in that case. -/
def initial_whisper (service : TranscriptionService) (provider : String)
    (fs : List String) (loadOk : Bool) : Option Unit :=
  if service = .Local then
    let lm := (find_local_model provider).getD localBase
    if lm.file_name ∈ fs then (if loadOk then some () else none) else none
  else none

/-- The system state right after `build_ui` finishes startup resolution. -/
def init_sys (config : Config) (db : Settings) (fs : List String) (loadOk : Bool) : Sys :=
  let r := resolve_initial config db
  { st := .Idle,
    rt := { active_service := r.1,
            active_provider := r.2.1,
            api_base_url := r.2.2.1,
            api_key := r.2.2.2.1,
            api_model := r.2.2.2.2,
            local_whisper := initial_whisper r.1 r.2.1 fs loadOk,
            downloading := false },
    db := db, fs := fs, status := " ", capturing := false,
    pendingLoads := 0, pendingDl := false, dlTarget := none, pendingTrans := false,
    dialogOpen := false }

/-- `delete_all_local_models` from src/ui.rs: removes every preset model file
present in the models directory. -/
def delete_all_local_models (fs : List String) : List String :=
  LOCAL_MODEL_PRESETS.foldl (fun acc lm => file_remove acc lm.file_name) fs

/-- Spawning `load_whisper_model` (src/ui.rs lines 971-991): sets the status
and registers one more pending load poll. -/
def load_whisper_model_start (s : Sys) : Sys :=
  { s with status := "Loading model...", pendingLoads := s.pendingLoads + 1 }

/-- Delivery of a model-load outcome to the poll closure of
`load_whisper_model` (src/ui.rs lines 992-1037).  `ok = false` covers both the
error message and the disconnected-channel case, which run the same revert
code.  Only applies when a load poll is pending. -/
def load_result (s : Sys) (ok : Bool) : Sys :=
  if s.pendingLoads = 0 then s
  else
    let s1 : Sys := { s with pendingLoads := s.pendingLoads - 1 }
    if ok then
      { s1 with rt := { s1.rt with local_whisper := some () }, status := "Local mode ready" }
    else
      { s1 with
        rt := { s1.rt with
                active_service := .Api, active_provider := "groq",
                api_base_url := groqPreset.base_url, api_model := groqPreset.default_model },
        status := "Model load failed" }

/-- Spawning `download_and_load_model` (src/ui.rs lines 1048-1066): sets the
downloading flag and the status, and registers the download poll with its
target file name. -/
def download_start (s : Sys) (target : String) : Sys :=
  { s with
    rt := { s.rt with downloading := true }, status := "Downloading model...",
    pendingDl := true, dlTarget := some target }

/-- Delivery of the terminal download message to the poll closure of
`download_and_load_model` (src/ui.rs lines 1122-1167).  On `Done` the renamed
artifact is in the models directory, the flag clears and a model load starts;
on `Error` the flag clears and the selection reverts to the first API preset.
Only applies when the download poll is pending. -/
def download_finished (s : Sys) (ok : Bool) : Sys :=
  if s.pendingDl = false then s
  else if ok then
    let fs2 := match s.dlTarget with
      | some t => file_create s.fs t
      | none => s.fs
    load_whisper_model_start
      { s with
        rt := { s.rt with downloading := false }, fs := fs2,
        pendingDl := false, dlTarget := none, status := "Loading model..." }
  else
    { s with
      rt := { s.rt with
              downloading := false, active_service := .Api,
              active_provider := "groq", api_base_url := groqPreset.base_url,
              api_model := groqPreset.default_model },
      pendingDl := false, dlTarget := none, status := "Download failed" }

/-- `switch_to_preset` from src/ui.rs (lines 732-776), runtime-state part:
for presets that need a key the saved per-provider key wins, otherwise the
existing active key is kept; presets that need no key clear the key. -/
def switch_to_preset_rt (rt : RuntimeState) (db : Settings) (p : ApiPreset) : RuntimeState :=
  let key :=
    if p.needs_key then
      match get_setting db ("api_key_" ++ p.id) with
      | some k => some k
      | none => rt.api_key
    else none
  { rt with
    active_service := .Api, active_provider := p.id, api_base_url := p.base_url,
    api_model := p.default_model, api_key := key, local_whisper := none }

/-- `switch_to_preset` from src/ui.rs: updates the runtime state, deletes all
local model files, persists the mode and shows the preset label. -/
def switch_to_preset_sys (s : Sys) (p : ApiPreset) : Sys :=
  { s with
    rt := switch_to_preset_rt s.rt s.db p,
    fs := delete_all_local_models s.fs,
    db := set_setting s.db "transcription_mode" p.id,
    status := p.label ++ " mode" }

/-- `switch_to_local` from src/ui.rs (lines 924-969): deletes the previous
local preset artifact when switching between two different local presets,
activates the new selection with no resident handle, persists it, then either
starts a load (artifact present) or a download (artifact missing). -/
def switch_to_local_sys (s : Sys) (lp : LocalModelPreset) : Sys :=
  let fs1 :=
    if s.rt.active_service = .Local then
      match find_local_model s.rt.active_provider with
      | some old =>
          if old.id ≠ lp.id then file_remove s.fs old.file_name else s.fs
      | none => s.fs
    else s.fs
  let s1 : Sys :=
    { s with
      fs := fs1,
      rt := { s.rt with
              active_service := .Local, active_provider := lp.id,
              local_whisper := none },
      db := set_setting s.db "transcription_mode" lp.id }
  if lp.file_name ∈ s1.fs then load_whisper_model_start s1
  else download_start s1 lp.file_name

/-- The Save handler of the custom API dialog (src/ui.rs lines 874-919):
requires a non-empty url and model, persists the custom configuration,
activates it and deletes all local model files. -/
def dialog_save (s : Sys) (url key_text model : String) : Sys :=
  if s.dialogOpen = false then s
  else if url = "" ∨ model = "" then s
  else
    let api_key := if key_text = "" then none else some key_text
    let db1 := set_setting s.db "api_custom_url" url
    let db2 := match api_key with
      | some k => set_setting db1 "api_custom_key" k
      | none => db1
    let db3 := set_setting db2 "api_custom_model" model
    let db4 := set_setting db3 "transcription_mode" "custom"
    { s with
      db := db4,
      rt := { s.rt with
              active_service := .Api, active_provider := "custom",
              api_base_url := url, api_key := api_key, api_model := model,
              local_whisper := none },
      fs := delete_all_local_models s.fs,
      status := "Custom API mode", dialogOpen := false }

/-- The `set-api-config` D-Bus action (src/ui.rs lines 662-715).  `none` for
`base_url` also covers unparseable JSON (the handler returns early either
way); it checks only the presence of the fields, then persists, activates and
deletes all local model files — with no state or downloading guard. -/
def api_config (s : Sys) (base_url model api_key : Option String) : Sys :=
  match base_url with
  | none => s
  | some u =>
      match model with
      | none => s
      | some m =>
          let db1 := set_setting s.db "api_custom_url" u
          let db2 := match api_key with
            | some k => set_setting db1 "api_custom_key" k
            | none => db1
          let db3 := set_setting db2 "api_custom_model" m
          let db4 := set_setting db3 "transcription_mode" "custom"
          { s with
            db := db4,
            rt := { s.rt with
                    active_service := .Api, active_provider := "custom",
                    api_base_url := u, api_key := api_key, api_model := m,
                    local_whisper := none },
            fs := delete_all_local_models s.fs }

/-- The `transcription-mode` action handler (src/ui.rs lines 508-554): guarded
against non-Idle state, an active download and re-selecting the active
provider; then dispatches on local preset, `"custom"` (opens the dialog) or
API preset. -/
def mode_activate (s : Sys) (chosen : String) : Sys :=
  if s.st ≠ .Idle then s
  else if s.rt.downloading then s
  else if chosen = s.rt.active_provider then s
  else
    match find_local_model chosen with
    | some lp => switch_to_local_sys s lp
    | none =>
        if chosen = "custom" then { s with dialogOpen := true }
        else
          match find_preset chosen with
          | some p => switch_to_preset_sys s p
          | none => s

/-- The Cancel handler of the custom API dialog: closes it. -/
def dialog_cancel (s : Sys) : Sys := { s with dialogOpen := false }

/-- The mic button click handler (src/ui.rs lines 288-451).  `startOk` and
`stopOk` are the outcomes of `Recorder::start` and `Recorder::stop` where the
respective branch consults them.  The status strings of the guards are the
exact source strings; recorder error labels are abstracted. -/
def click (s : Sys) (startOk stopOk : Bool) : Sys :=
  match s.st with
  | .Idle =>
      if s.rt.downloading then { s with status := "Downloading model..." }
      else if s.rt.active_service = .Local ∧ s.rt.local_whisper = none then
        { s with status := "No local model loaded" }
      else if s.rt.active_service = .Api ∧
          ((find_preset s.rt.active_provider).map (fun p => p.needs_key)).getD true = true ∧
          s.rt.api_key = none then
        { s with status := "No API key set" }
      else if startOk = false then { s with status := "Err: record start" }
      else { s with st := .Recording, capturing := true, status := "Recording..." }
  | .Recording =>
      if stopOk = false then
        { s with st := .Idle, capturing := false, status := "Err: record stop" }
      else
        { s with
          st := .Processing, capturing := false, pendingTrans := true,
          status := "Transcribing..." }
  | .Processing => s

/-- Delivery of the transcription result to the poll closure (src/ui.rs lines
386-448): the state returns to Idle on success, failure and the disconnected
channel alike. -/
def trans_result (s : Sys) (ok : Bool) : Sys :=
  if s.pendingTrans = false then s
  else
    { s with
      st := .Idle, pendingTrans := false,
      status := if ok then "Copied!" else "Error!" }

/-- Events of the transition system: user actions and deliveries of background
outcomes to their poll closures. -/
inductive Event where
  | click (startOk stopOk : Bool)
  | modeActivate (chosen : String)
  | dialogSave (url key model : String)
  | dialogCancel
  | apiConfig (base_url model api_key : Option String)
  | loadDone (ok : Bool)
  | dlDone (ok : Bool)
  | transDone (ok : Bool)
deriving DecidableEq, Repr

def step (s : Sys) : Event → Sys
  | .click a b => click s a b
  | .modeActivate c => mode_activate s c
  | .dialogSave u k m => dialog_save s u k m
  | .dialogCancel => dialog_cancel s
  | .apiConfig u m k => api_config s u m k
  | .loadDone ok => load_result s ok
  | .dlDone ok => download_finished s ok
  | .transDone ok => trans_result s ok

def run (s : Sys) (es : List Event) : Sys := es.foldl step s

/-! ## Concrete configurations used by counterexamples and witnesses -/

/-- Env-var configuration with no API key configured. -/
def cfgNoKey : Config :=
  { transcription_service := .Api, api_base_url := "https://api.groq.com/openai/v1",
    api_key := none, api_model := "whisper-large-v3-turbo" }

/-- Env-var configuration with a process-level default API key. -/
def cfgEnvKey : Config :=
  { transcription_service := .Api, api_base_url := "https://api.groq.com/openai/v1",
    api_key := some "envK", api_model := "whisper-large-v3-turbo" }

/-- A reachable state with a model-load poll in flight: the tiny artifact is
present, so selecting the tiny preset starts a load. -/
def sLoadPending : Sys :=
  run (init_sys cfgNoKey [] [localTiny.file_name] true) [.modeActivate localTiny.id]

/-- A reachable state with a download in flight: the base artifact is absent,
so selecting the base preset starts a download. -/
def sDlPending : Sys :=
  run (init_sys cfgNoKey [] [] true) [.modeActivate localBase.id]

/-- Whether a download scenario reaches the rename: every chunk read and write
succeeds and the rename succeeds. -/
def dl_success : DlScen → Bool
  | .started steps renameOk => steps.all (fun c => c = .ok) && renameOk
  | _ => false

/-! ## Helper lemmas on the file-system model -/

theorem file_remove_of_not_mem (l : List String) (a : String) (h : a ∉ l) :
    file_remove l a = l := by
  unfold file_remove
  apply List.filter_eq_self.mpr
  intro b hb
  simp only [ne_eq, decide_not, Bool.not_eq_true', decide_eq_false_iff_not]
  intro hba
  exact h (hba ▸ hb)

theorem not_mem_file_remove (l : List String) (a : String) : a ∉ file_remove l a := by
  unfold file_remove
  intro h
  have := List.of_mem_filter h
  simp at this

theorem mem_of_mem_file_remove {l : List String} {a b : String}
    (h : b ∈ file_remove l a) : b ∈ l :=
  List.mem_of_mem_filter h

theorem mem_file_remove_of_ne {l : List String} {a b : String}
    (hb : b ∈ l) (hba : b ≠ a) : b ∈ file_remove l a := by
  unfold file_remove
  exact List.mem_filter.mpr ⟨hb, by simp [hba]⟩

theorem dl_write_loop_cases (steps : List ChunkStep) (fs : List String) :
    (steps.all (fun c => c = .ok) = true ∧ dl_write_loop fs steps = (fs, .ok ())) ∨
    (steps.all (fun c => c = .ok) = false ∧ ∃ e, dl_write_loop fs steps = (fs, .error e)) := by
  induction steps with
  | nil => exact Or.inl ⟨rfl, rfl⟩
  | cons c rest ih =>
      cases c with
      | ok =>
          rcases ih with ⟨h1, h2⟩ | ⟨h1, e, h2⟩
          · exact Or.inl ⟨by simp [h1], by simpa [dl_write_loop] using h2⟩
          · exact Or.inr ⟨by simp [h1], e, by simpa [dl_write_loop] using h2⟩
      | readErr => exact Or.inr ⟨by simp, "Download read error", rfl⟩
      | writeErr => exact Or.inr ⟨by simp, "File write error", rfl⟩

/-- C5.  For every model download, a failure at any step (request, status,
file create, chunk read, chunk write, rename) removes the partial file so the
models directory is exactly what it was, containing neither the part file nor
the final artifact, and `Error` is sent; success leaves exactly the final
artifact added and `Done` is sent.  The second component of `download_run` is
whether `Error` was sent. -/
theorem c5_theorem (scen : DlScen) (fs : List String) (part final : String)
    (hp : part ∉ fs) (hf : final ∉ fs) (hpf : part ≠ final) :
    (download_run scen fs part final).2 = !dl_success scen ∧
    ((download_run scen fs part final).2 = true →
        (download_run scen fs part final).1 = fs ∧
        part ∉ (download_run scen fs part final).1 ∧
        final ∉ (download_run scen fs part final).1) ∧
    ((download_run scen fs part final).2 = false →
        (download_run scen fs part final).1 = final :: fs ∧
        part ∉ (download_run scen fs part final).1 ∧
        final ∈ (download_run scen fs part final).1) := by
  have hcreate : file_create fs part = part :: fs := by
    unfold file_create
    simp [hp]
  cases scen with
  | requestFail =>
      simp [download_run, download_body, dl_success, file_remove_of_not_mem fs part hp,
        hp, hf]
  | badStatus =>
      simp [download_run, download_body, dl_success, file_remove_of_not_mem fs part hp,
        hp, hf]
  | createFail =>
      simp [download_run, download_body, dl_success, file_remove_of_not_mem fs part hp,
        hp, hf]
  | started steps renameOk =>
      have hrm : file_remove (part :: fs) part = fs := by
        have h1 : file_remove (part :: fs) part = file_remove fs part := by
          unfold file_remove
          simp [List.filter_cons]
        rw [h1, file_remove_of_not_mem fs part hp]
      rcases dl_write_loop_cases steps (part :: fs) with ⟨hall, hloop⟩ |
        ⟨hall, e, hloop⟩
      · cases renameOk with
        | true =>
            have hren : file_rename (part :: fs) part final = final :: fs := by
              unfold file_rename
              rw [if_pos (List.mem_cons_self part fs), hrm,
                file_remove_of_not_mem fs final hf]
            simp [download_run, download_body, dl_success, hcreate, hloop, hall, hren,
              hp, hf, hpf, Ne.symm hpf]
        | false =>
            simp [download_run, download_body, dl_success, hcreate, hloop, hall, hrm,
              hp, hf]
      · cases renameOk <;>
          simp [download_run, download_body, dl_success, hcreate, hloop, hall, hrm,
            hp, hf]

/-- C5 witness: a successful two-chunk download and its effect on a concrete
directory. -/
theorem c5_witness :
    ("p" ∉ (["x"] : List String)) ∧ ("f" ∉ (["x"] : List String)) ∧ "p" ≠ "f" ∧
    ((download_run (.started [.ok, .ok] true) ["x"] "p" "f").2 = false →
        (download_run (.started [.ok, .ok] true) ["x"] "p" "f").1 = "f" :: ["x"] ∧
        "p" ∉ (download_run (.started [.ok, .ok] true) ["x"] "p" "f").1 ∧
        "f" ∈ (download_run (.started [.ok, .ok] true) ["x"] "p" "f").1) :=
  ⟨by decide, by decide, by decide,
    (c5_theorem (.started [.ok, .ok] true) ["x"] "p" "f" (by decide) (by decide)
      (by decide)).2.2⟩

/-- C10.  Every completed switch to a Remote preset, every Save of the custom
API dialog and every `set-api-config` activation deletes the artifact of every
local model preset from the models directory (not only the previously active
one), leaving all other files in place. -/
theorem c10_theorem (s : Sys) (p : ApiPreset) (u m url key_text model : String)
    (k : Option String) :
    ((switch_to_preset_sys s p).fs = delete_all_local_models s.fs) ∧
    (s.dialogOpen = true → url ≠ "" → model ≠ "" →
        (step s (.dialogSave url key_text model)).fs = delete_all_local_models s.fs) ∧
    ((step s (.apiConfig (some u) (some m) k)).fs = delete_all_local_models s.fs) ∧
    (∀ lm ∈ LOCAL_MODEL_PRESETS, lm.file_name ∉ delete_all_local_models s.fs) ∧
    (∀ f ∈ s.fs, (∀ lm ∈ LOCAL_MODEL_PRESETS, f ≠ lm.file_name) →
        f ∈ delete_all_local_models s.fs) := by
  refine ⟨rfl, ?_, ?_, ?_, ?_⟩
  · intro hD hu hm
    simp only [step, dialog_save, hD]
    simp [hu, hm]
  · simp [step, api_config]
  · intro lm hlm
    have hchain :
        delete_all_local_models s.fs =
          file_remove (file_remove (file_remove (file_remove s.fs localTiny.file_name)
            localBase.file_name) localSmall.file_name) localMedium.file_name := by
      simp [delete_all_local_models, LOCAL_MODEL_PRESETS]
    rw [hchain]
    simp only [LOCAL_MODEL_PRESETS, List.mem_cons, List.not_mem_nil, or_false] at hlm
    rcases hlm with rfl | rfl | rfl | rfl
    · intro h
      exact not_mem_file_remove _ _
        (mem_of_mem_file_remove (mem_of_mem_file_remove (mem_of_mem_file_remove h)))
    · intro h
      exact not_mem_file_remove _ _
        (mem_of_mem_file_remove (mem_of_mem_file_remove h))
    · intro h
      exact not_mem_file_remove _ _ (mem_of_mem_file_remove h)
    · intro h
      exact not_mem_file_remove _ _ h
  · intro f hf hne
    have hchain :
        delete_all_local_models s.fs =
          file_remove (file_remove (file_remove (file_remove s.fs localTiny.file_name)
            localBase.file_name) localSmall.file_name) localMedium.file_name := by
      simp [delete_all_local_models, LOCAL_MODEL_PRESETS]
    rw [hchain]
    refine mem_file_remove_of_ne (mem_file_remove_of_ne (mem_file_remove_of_ne
      (mem_file_remove_of_ne hf ?_) ?_) ?_) ?_
    · exact hne localTiny (by simp [LOCAL_MODEL_PRESETS])
    · exact hne localBase (by simp [LOCAL_MODEL_PRESETS])
    · exact hne localSmall (by simp [LOCAL_MODEL_PRESETS])
    · exact hne localMedium (by simp [LOCAL_MODEL_PRESETS])

/-- C10 witness: with the dialog open over a directory holding two artifacts
and an unrelated file, saving a custom configuration leaves only the unrelated
file. -/
theorem c10_witness :
    (step (init_sys cfgNoKey [] ["ggml-tiny.en.bin", "other.txt", "ggml-base.en.bin"] true)
        (.modeActivate "custom")).dialogOpen = true ∧
    ("https://e.example/v1" : String) ≠ "" ∧ ("m1" : String) ≠ "" ∧
    (step (step (init_sys cfgNoKey [] ["ggml-tiny.en.bin", "other.txt", "ggml-base.en.bin"] true)
          (.modeActivate "custom"))
        (.dialogSave "https://e.example/v1" "" "m1")).fs =
      delete_all_local_models
        (step (init_sys cfgNoKey [] ["ggml-tiny.en.bin", "other.txt", "ggml-base.en.bin"] true)
          (.modeActivate "custom")).fs :=
  ⟨by decide, by decide, by decide,
    (c10_theorem
        (step (init_sys cfgNoKey [] ["ggml-tiny.en.bin", "other.txt", "ggml-base.en.bin"] true)
          (.modeActivate "custom"))
        groqPreset "u" "m" "https://e.example/v1" "" "m1" none).2.1
      (by decide) (by decide) (by decide)⟩

/-! ## Helper lemmas on the audio pipeline -/

theorem sum_take_drop :
    ∀ (c m : Nat) (l : List ℚ), m + c ≤ l.length →
      ((l.drop m).take c).sum = (Finset.range c).sum (fun j => l.getD (m + j) 0) := by
  intro c
  induction c with
  | zero =>
      intro m l h
      simp
  | succ c ih =>
      intro m l h
      have hm : m < l.length := by omega
      rw [List.drop_eq_getElem_cons hm, List.take_succ_cons, List.sum_cons,
        ih (m + 1) l (by omega), Finset.sum_range_succ']
      have h0 : l.getD (m + 0) 0 = l[m] := by
        simpa using List.getD_eq_getElem l 0 hm
      rw [h0]
      have hS : (Finset.range c).sum (fun j => l.getD (m + 1 + j) 0)
          = (Finset.range c).sum (fun j => l.getD (m + (j + 1)) 0) :=
        Finset.sum_congr rfl (fun j _ => by congr 1; omega)
      rw [hS]
      ring

theorem downmix_get_eq (c : Nat) :
    ∀ (i : Nat) (l : List ℚ), (i + 1) * (c + 1) ≤ l.length →
      (downmix (c + 1) l).get? i
        = some (((l.drop (i * (c + 1))).take (c + 1)).sum / ((c + 1 : Nat) : ℚ)) := by
  intro i
  induction i with
  | zero =>
      intro l hl
      cases l with
      | nil => simp at hl
      | cons x xs =>
          have hxs : c ≤ xs.length := by
            simp only [List.length_cons, one_mul] at hl
            omega
          have hlen : (((x :: xs.take c).length : Nat) : ℚ) = ((c + 1 : Nat) : ℚ) := by
            simp [List.length_take, Nat.min_eq_left hxs]
          simp only [downmix, List.get?, Nat.zero_mul, List.drop_zero, List.take_succ_cons]
          rw [hlen]
  | succ i ih =>
      intro l hl
      cases l with
      | nil => simp at hl
      | cons x xs =>
          simp only [downmix, List.get?]
          have hlen2 : (i + 1) * (c + 1) ≤ (xs.drop c).length := by
            have he : (i + 1 + 1) * (c + 1) = (i + 1) * (c + 1) + (c + 1) := by ring
            simp only [List.length_cons] at hl
            simp only [List.length_drop]
            omega
          rw [ih (xs.drop c) hlen2]
          have hdrop : (xs.drop c).drop (i * (c + 1)) = (x :: xs).drop ((i + 1) * (c + 1)) := by
            have h1 : (i + 1) * (c + 1) = (i * (c + 1) + c) + 1 := by ring
            rw [h1, List.drop_succ_cons, List.drop_drop, Nat.add_comm]
          rw [hdrop]

/-- C8.  For every multi-channel capture buffer, the mono downmix holds at
frame `i` the arithmetic mean of the `c` channel samples of frame `i`, for
every channel count `c ≥ 2`; and `Recorder::stop` fails with the empty-capture
error exactly when zero samples were captured. -/
theorem c8_theorem (c r : Nat) (samples : List ℚ) (hc : 2 ≤ c) :
    (∀ i, (i + 1) * c ≤ samples.length →
        (downmix c samples).get? i
          = some ((Finset.range c).sum (fun j => samples.getD (i * c + j) 0) / (c : ℚ))) ∧
    (recorder_stop c r samples = .error "No audio recorded" ↔ samples = []) := by
  obtain ⟨c', rfl⟩ : ∃ c', c = c' + 1 := ⟨c - 1, by omega⟩
  constructor
  · intro i hi
    have h2 : i * (c' + 1) + (c' + 1) = (i + 1) * (c' + 1) := by ring
    rw [downmix_get_eq c' i samples hi,
      sum_take_drop (c' + 1) (i * (c' + 1)) samples (le_of_le_of_eq (le_of_eq h2) rfl |>.trans hi)]
  · cases samples with
    | nil => simp [recorder_stop]
    | cons x xs => simp [recorder_stop]

/-- C8 witness: a concrete stereo buffer and the empty-capture case. -/
theorem c8_witness :
    ((2 : Nat) ≤ 2) ∧
    ((downmix 2 [1, 3, 5, 9]).get? 1
      = some ((Finset.range 2).sum (fun j => ([1, 3, 5, 9] : List ℚ).getD (1 * 2 + j) 0)
          / (2 : ℚ))) ∧
    (recorder_stop 2 8000 ([] : List ℚ) = .error "No audio recorded" ↔ ([] : List ℚ) = []) :=
  ⟨by decide,
    (c8_theorem 2 8000 [1, 3, 5, 9] (by decide)).1 1 (by decide),
    (c8_theorem 2 8000 [] (by decide)).2⟩

/-- C4 counterexample.  The claim says the written sample is
`round(clamp(s, -1, 1) * 32767)`.  At `s = 1/2` (exactly representable in
f32) the code writes `16383` — `0.5 * 32767 = 16383.5` truncated toward zero —
while rounding would give `16384`. -/
theorem c4_counterexample :
    recorder_stop 1 16000 [(1 : ℚ)/2]
        = .ok { channels := 1, sample_rate := 16000, bits_per_sample := 16,
                data := [16383] } ∧
    round (clampQ ((1 : ℚ)/2) * 32767) = 16384 ∧ (16383 : ℤ) ≠ 16384 := by
  refine ⟨?_, ?_, by decide⟩
  · unfold recorder_stop
    norm_num [encodeSample, as_i16_trunc, clampQ]
  · norm_num [clampQ, round_eq]

/-- C4 amended.  For every float input sample, the 16-bit sample written by the
encoder is `clamp(s, -1, 1) * 32767` truncated toward zero (not rounded to
nearest), and the container is mono 16-bit signed PCM at the given sample
rate. -/
theorem c4_theorem (r : Nat) (samples : List ℚ) (i : Nat)
    (hi : i < samples.length) (hne : samples ≠ []) :
    ∃ w, recorder_stop 1 r samples = .ok w ∧ w.channels = 1 ∧ w.bits_per_sample = 16 ∧
      w.sample_rate = r ∧ w.data.get? i = some (encodeSample (samples.getD i 0)) := by
  refine ⟨{ channels := 1, sample_rate := r, bits_per_sample := 16,
            data := samples.map encodeSample }, ?_, rfl, rfl, rfl, ?_⟩
  · unfold recorder_stop
    rw [if_neg (by simpa [List.isEmpty_iff] using hne)]
    simp
  · rw [List.get?_map, List.get?_eq_get hi]
    simp [List.getD_eq_getElem _ _ hi, List.get_eq_getElem, List.getElem?_eq_getElem hi]

/-- C4 witness: the sample `1/2` at 8 kHz. -/
theorem c4_witness :
    ((0 : Nat) < ([(1 : ℚ)/2]).length) ∧ (([(1 : ℚ)/2] : List ℚ) ≠ []) ∧
    ∃ w, recorder_stop 1 8000 [(1 : ℚ)/2] = .ok w ∧ w.channels = 1 ∧
      w.bits_per_sample = 16 ∧ w.sample_rate = 8000 ∧
      w.data.get? 0 = some (encodeSample (([(1 : ℚ)/2]).getD 0 0)) :=
  ⟨by decide, by decide, c4_theorem 8000 [(1 : ℚ)/2] 0 (by decide) (by decide)⟩

/-! ## Helper lemmas on the settings store -/

theorem get_setting_set_setting_same (db : Settings) (k v : String) :
    get_setting (set_setting db k v) k = some v := by
  simp [get_setting, set_setting, List.find?]

/-! ## Claims on the orchestration state machine -/

/-- C1 counterexample.  Immediately after startup resolution with a persisted
`"local"` selection, the active service is Local while no model handle is
resident — both when the artifact is missing and when the artifact is present
but the startup load fails (in which case no revert to a Remote preset happens
either) — so the claimed invariant fails at a reachable state. -/
theorem c1_counterexample :
    (init_sys cfgNoKey [("transcription_mode", "local")] [] true).rt.active_service
        = .Local ∧
    (init_sys cfgNoKey [("transcription_mode", "local")] [] true).rt.local_whisper
        = none ∧
    (init_sys cfgNoKey [("transcription_mode", "local")]
        [localTiny.file_name] false).rt.active_service = .Local ∧
    (init_sys cfgNoKey [("transcription_mode", "local")]
        [localTiny.file_name] false).rt.local_whisper = none := by
  decide

/-- C1 amended.  Whenever a switch-initiated model load or model download
fails, the active selection reverts to the first Remote preset (and a download
failure clears the downloading flag); however the invariant that an active
Local service implies a resident handle does not hold at every reachable state
(see the counterexample at startup). -/
theorem c1_theorem (s : Sys) :
    (0 < s.pendingLoads →
        (step s (.loadDone false)).rt.active_service = .Api ∧
        (step s (.loadDone false)).rt.active_provider = groqPreset.id) ∧
    (s.pendingDl = true →
        (step s (.dlDone false)).rt.active_service = .Api ∧
        (step s (.dlDone false)).rt.active_provider = groqPreset.id ∧
        (step s (.dlDone false)).rt.downloading = false) := by
  constructor
  · intro h
    have h0 : ¬ s.pendingLoads = 0 := by omega
    simp [step, load_result, h0, groqPreset]
  · intro h
    simp [step, download_finished, h, groqPreset]

/-- C1 witness: states with a pending load and a pending download. -/
theorem c1_witness :
    (0 < sLoadPending.pendingLoads ∧
      (step sLoadPending (.loadDone false)).rt.active_service = .Api ∧
      (step sLoadPending (.loadDone false)).rt.active_provider = groqPreset.id) ∧
    (sDlPending.pendingDl = true ∧
      (step sDlPending (.dlDone false)).rt.active_service = .Api ∧
      (step sDlPending (.dlDone false)).rt.active_provider = groqPreset.id ∧
      (step sDlPending (.dlDone false)).rt.downloading = false) :=
  ⟨⟨by decide, (c1_theorem sLoadPending).1 (by decide)⟩,
   ⟨by decide, (c1_theorem sDlPending).2 (by decide)⟩⟩

/-- C2 counterexample.  The D-Bus `set-api-config` activation of a custom
remote configuration carries no state or downloading guard: delivered while
the orchestrator is Processing, it still changes the active configuration and
the persisted settings. -/
theorem c2_counterexample :
    (run (init_sys cfgEnvKey [] [] true) [.click true true, .click true true]).st
        = .Processing ∧
    (step (run (init_sys cfgEnvKey [] [] true) [.click true true, .click true true])
        (.apiConfig (some "http://u") (some "m") none)).rt
      ≠ (run (init_sys cfgEnvKey [] [] true) [.click true true, .click true true]).rt ∧
    (step (run (init_sys cfgEnvKey [] [] true) [.click true true, .click true true])
        (.apiConfig (some "http://u") (some "m") none)).db
      ≠ (run (init_sys cfgEnvKey [] [] true) [.click true true, .click true true]).db := by
  decide

/-- C2 amended.  Provider switches through the `transcription-mode` action
(Remote preset, Local preset, or opening the custom dialog) are complete
no-ops whenever the state is not Idle or a download is in progress; the
`set-api-config` activation is not guarded (see the counterexample). -/
theorem c2_theorem (s : Sys) (chosen : String)
    (h : s.st ≠ .Idle ∨ s.rt.downloading = true) :
    step s (.modeActivate chosen) = s := by
  rcases h with h | h
  · simp [step, mode_activate, h]
  · by_cases hst : s.st = .Idle
    · simp [step, mode_activate, hst, h]
    · simp [step, mode_activate, hst]

/-- C2 witness: a mode switch delivered while Recording is a no-op. -/
theorem c2_witness :
    step (run (init_sys cfgEnvKey [] [] true) [.click true true]) (.modeActivate "ollama")
      = run (init_sys cfgEnvKey [] [] true) [.click true true] :=
  c2_theorem _ "ollama" (Or.inl (by decide))

/-- C3 counterexample.  Start with the env default key, switch to Ollama (a
preset needing no key, so the active key is cleared), then switch to Groq with
no key saved for Groq: the code keeps the active key `none` instead of falling
back to the process-level default key `some "envK"`. -/
theorem c3_counterexample :
    cfgEnvKey.api_key = some "envK" ∧
    get_setting (run (init_sys cfgEnvKey [] [] true) [.modeActivate "ollama"]).db
        ("api_key_" ++ groqPreset.id) = none ∧
    (run (init_sys cfgEnvKey [] [] true)
        [.modeActivate "ollama", .modeActivate "groq"]).rt.active_provider
      = groqPreset.id ∧
    (run (init_sys cfgEnvKey [] [] true)
        [.modeActivate "ollama", .modeActivate "groq"]).rt.api_key
      ≠ cfgEnvKey.api_key := by
  decide

/-- C3 amended.  Switching to a Remote preset that requires a key takes the
key saved for that provider id if one exists and otherwise keeps the currently
active key unchanged (the process-level default applies only insofar as it is
still the active key); switching to a preset that needs no key always clears
the key.  The switch also activates the preset and persists it. -/
theorem c3_theorem (s : Sys) (p : ApiPreset) :
    (switch_to_preset_sys s p).rt.api_key
        = (if p.needs_key then (get_setting s.db ("api_key_" ++ p.id)).or s.rt.api_key
           else none) ∧
    (switch_to_preset_sys s p).rt.active_service = .Api ∧
    (switch_to_preset_sys s p).rt.active_provider = p.id ∧
    (switch_to_preset_sys s p).rt.local_whisper = none ∧
    get_setting (switch_to_preset_sys s p).db "transcription_mode" = some p.id := by
  refine ⟨?_, rfl, rfl, rfl, ?_⟩
  · by_cases hk : p.needs_key
    · cases hq : get_setting s.db ("api_key_" ++ p.id) <;>
        simp [switch_to_preset_sys, switch_to_preset_rt, hk, hq, Option.or]
    · simp [switch_to_preset_sys, switch_to_preset_rt, hk]
  · exact get_setting_set_setting_same s.db "transcription_mode" p.id

/-- C6 counterexample.  `set-api-config` with a present but empty `base_url`
is accepted: the empty url is persisted and activated. -/
theorem c6_counterexample :
    (step (init_sys cfgNoKey [] [] true)
        (.apiConfig (some "") (some "m") none)).rt.api_base_url = "" ∧
    (step (init_sys cfgNoKey [] [] true)
        (.apiConfig (some "") (some "m") none)).rt.active_provider = "custom" ∧
    (step (init_sys cfgNoKey [] [] true)
        (.apiConfig (some "") (some "m") none)).db ≠ (init_sys cfgNoKey [] [] true).db ∧
    (step (init_sys cfgNoKey [] [] true)
        (.apiConfig (some "") (some "m") none)).rt ≠ (init_sys cfgNoKey [] [] true).rt := by
  decide

/-- C6 amended.  The custom API dialog validates that url and model are
non-empty: saving with either empty leaves the whole state (configuration and
persisted settings) unchanged.  The `set-api-config` path checks only field
presence and accepts empty strings (see the counterexample). -/
theorem c6_theorem (s : Sys) (url key_text model : String)
    (h : url = "" ∨ model = "") :
    step s (.dialogSave url key_text model) = s := by
  by_cases hd : s.dialogOpen = false
  · simp [step, dialog_save, hd]
  · rcases h with h | h <;> subst h <;> simp [step, dialog_save, hd]

/-- C6 witness: saving with an empty url changes nothing. -/
theorem c6_witness :
    step (init_sys cfgNoKey [] [] true) (.dialogSave "" "k" "m")
      = init_sys cfgNoKey [] [] true :=
  c6_theorem _ "" "k" "m" (Or.inl rfl)

/-- C7 counterexample.  A reachable state in which the trigger preconditions
of the claim hold (Idle, Groq active, key required, no key) but the click is
rejected with the downloading reason instead of the missing-key reason: select
the tiny local preset (artifact present, load starts), then the base preset
(artifact absent, download starts), then let the stale load poll deliver a
failure, which reverts the selection to Groq while the download is still
running. -/
theorem c7_counterexample :
    (run (init_sys cfgNoKey [] ["ggml-tiny.en.bin"] true)
        [.modeActivate "local-tiny", .modeActivate "local-base", .loadDone false]).st
      = .Idle ∧
    find_preset (run (init_sys cfgNoKey [] ["ggml-tiny.en.bin"] true)
        [.modeActivate "local-tiny", .modeActivate "local-base",
          .loadDone false]).rt.active_provider = some groqPreset ∧
    groqPreset.needs_key = true ∧
    (run (init_sys cfgNoKey [] ["ggml-tiny.en.bin"] true)
        [.modeActivate "local-tiny", .modeActivate "local-base",
          .loadDone false]).rt.api_key = none ∧
    (step (run (init_sys cfgNoKey [] ["ggml-tiny.en.bin"] true)
        [.modeActivate "local-tiny", .modeActivate "local-base", .loadDone false])
        (.click true true)).status = "Downloading model..." ∧
    (step (run (init_sys cfgNoKey [] ["ggml-tiny.en.bin"] true)
        [.modeActivate "local-tiny", .modeActivate "local-base", .loadDone false])
        (.click true true)).status ≠ "No API key set" := by
  decide

/-- C7 amended.  For every trigger received in state Idle while no download is
in progress, with an active Remote preset that requires a key and no key set,
the click handler only sets the missing-key status: capture is not started and
nothing else of the state changes. -/
theorem c7_theorem (s : Sys) (a b : Bool) (p : ApiPreset)
    (hst : s.st = .Idle) (hdl : s.rt.downloading = false)
    (hsvc : s.rt.active_service = .Api)
    (hp : find_preset s.rt.active_provider = some p) (hk : p.needs_key = true)
    (hkey : s.rt.api_key = none) :
    step s (.click a b) = { s with status := "No API key set" } := by
  obtain ⟨st, rt, db, fs, status, cap, pl, pd, dt, pt, dlg⟩ := s
  obtain ⟨svc, prov, url, key, model, lw, dl⟩ := rt
  simp only at hst hdl hsvc hp hkey
  subst hst hdl hsvc hkey
  simp [step, click, hp, hk]

/-- C7 witness: the startup state with Groq active and no key. -/
theorem c7_witness :
    step (init_sys cfgNoKey [] [] true) (.click true true)
      = { init_sys cfgNoKey [] [] true with status := "No API key set" } :=
  c7_theorem (init_sys cfgNoKey [] [] true) true true groqPreset (by decide) (by decide)
    (by decide) (by decide) (by decide) (by decide)

/-- C9 counterexample.  A reachable state with the custom provider active and
no key where the trigger is rejected with the downloading reason, not the
missing-key reason: start a download by selecting an absent local preset, then
activate a keyless custom configuration through the unguarded
`set-api-config`, then click. -/
theorem c9_counterexample :
    (run (init_sys cfgNoKey [] [] true)
        [.modeActivate "local-base", .apiConfig (some "http://u") (some "m") none]).st
      = .Idle ∧
    find_preset (run (init_sys cfgNoKey [] [] true)
        [.modeActivate "local-base",
          .apiConfig (some "http://u") (some "m") none]).rt.active_provider = none ∧
    (run (init_sys cfgNoKey [] [] true)
        [.modeActivate "local-base",
          .apiConfig (some "http://u") (some "m") none]).rt.api_key = none ∧
    (step (run (init_sys cfgNoKey [] [] true)
        [.modeActivate "local-base", .apiConfig (some "http://u") (some "m") none])
        (.click true true)).status = "Downloading model..." ∧
    (step (run (init_sys cfgNoKey [] [] true)
        [.modeActivate "local-base", .apiConfig (some "http://u") (some "m") none])
        (.click true true)).status ≠ "No API key set" := by
  decide

/-- C9 amended.  With the active provider outside the preset table (the custom
configuration or any unknown id), the key-required check defaults to true: a
trigger in Idle with no key and no download in progress is rejected with the
missing-key reason and nothing but the status changes. -/
theorem c9_theorem (s : Sys) (a b : Bool)
    (hst : s.st = .Idle) (hdl : s.rt.downloading = false)
    (hsvc : s.rt.active_service = .Api)
    (hp : find_preset s.rt.active_provider = none)
    (hkey : s.rt.api_key = none) :
    step s (.click a b) = { s with status := "No API key set" } := by
  obtain ⟨st, rt, db, fs, status, cap, pl, pd, dt, pt, dlg⟩ := s
  obtain ⟨svc, prov, url, key, model, lw, dl⟩ := rt
  simp only at hst hdl hsvc hp hkey
  subst hst hdl hsvc hkey
  simp [step, click, hp]

/-- C9 witness: the custom configuration activated with no key, then a
click. -/
theorem c9_witness :
    step (step (init_sys cfgNoKey [] [] true)
        (.apiConfig (some "https://e.example/v1") (some "m1") none)) (.click true true)
      = { step (init_sys cfgNoKey [] [] true)
            (.apiConfig (some "https://e.example/v1") (some "m1") none) with
          status := "No API key set" } :=
  c9_theorem (step (init_sys cfgNoKey [] [] true)
      (.apiConfig (some "https://e.example/v1") (some "m1") none)) true true
    (by decide) (by decide) (by decide) (by decide) (by decide)

end WhisperClip
